import Mathlib

/-!
Verification of the AIRA_BACKEND call-bridge server against its specification.

The repository contains two near-identical server variants:
`src/server.py` (the original, modelled here with the `old_` prefix) and
`src/newServer.py` (the cleaned variant, modelled with the `new_` prefix).
Both bridge a Twilio media stream websocket to an OpenAI realtime session:
a receiver loop `twilio_to_openai` forwards inbound telephony frames, and an
event loop `openai_to_twilio` dispatches realtime events, triggers a one-shot
candidate-data extraction request, and (in newServer.py) parses the
extraction response.

The embedding below is a direct shallow translation of those loops:
Python dict events become inductive types, the closure-captured mutable
variables (`stream_sid`, `extraction_done`, `extraction_requested`,
`interview_completed`, `conversation_turns`) become explicit state records,
and each event handler becomes a list of micro-operations in the statement
order of the Python source, so that the position of a state write relative
to an awaited send is preserved.
-/

/-- The left-brace character, written by code point. -/
def lbrace : Char := Char.ofNat 123

/-- The right-brace character, written by code point. -/
def rbrace : Char := Char.ofNat 125

/-- The greeting line mandated by STEP 1 of the system instructions
(`Say exactly:` in `SYSTEM_INSTRUCTIONS`, identical in both variants). -/
def MANDATED_GREETING : String :=
  "Hello, I am SAVIRA from Kainskep Solutions. Are you currently looking for a job or considering a job change?"

/-- `SYSTEM_INSTRUCTIONS` from src/server.py lines 31-100 and
src/newServer.py lines 36-105 (the two variants carry the identical text).
The mandated greeting line is spliced in from `MANDATED_GREETING` so that
the connection between the two is definitional. -/
def SYSTEM_INSTRUCTIONS : String :=
  "\nYou are SAVIRA, a professional HR interviewer from Kainskep Solutions.\nYou are conducting a live outbound telephonic screening interview.\n\nSTRICT BEHAVIOR RULES:\n- Stay focused ONLY on job and interview-related conversation.\n- Ask a maximum of 8 to 10 interview questions in total.\n- Do NOT ask additional questions beyond these 8–10 under any condition.\n- Ask ONE question at a time and wait for the candidate’s response.\n- Keep responses short, clear, and professional (1–2 sentences).\n- Do NOT engage in casual conversation or unrelated topics.\n- If the candidate goes off-topic, politely redirect them back to the interview.\n- Do NOT explain evaluation, scoring, or internal decisions.\n\nINTERVIEW FLOW (FOLLOW STRICTLY):\n\nSTEP 1 – GREETING:\nSay exactly:\n\"" ++ MANDATED_GREETING ++ "\"\n\nWait for a clear response.\n\nIf NO:\n- Say:\n\"Thank you for your time. Have a great day. Goodbye.\"\n- End the conversation.\n\nIf YES:\n- Proceed to STEP 2.\n\nSTEP 2 – ROLE CONFIRMATION:\nAsk:\n\"Which role or position are you currently looking for?\"\n\nDo not proceed until the role is clearly stated.\n\nSTEP 3 – INTERVIEW QUESTIONS (8–10 TOTAL):\n- Ask 8 to 10 job-relevant interview questions based on the stated role.\n- These questions must naturally gather the following information where possible:\n  - Full name\n  - Email address\n  - Current or last company name\n  - Total years of experience\n  - Previous salary\n  - Expected salary\n  - Desired role\n- Do NOT ask separate questions only for data collection.\n- Embed required details naturally within interview-style questions.\n- If a detail is not provided, do NOT ask extra questions to collect it.\n- If a candidate refuses to share any detail, mark it internally as \"Not disclosed\".\n- Do NOT guess, assume, or overwrite previously provided information.\n\nDATA HANDLING RULES:\n- Maintain an internal structured record of the candidate’s responses.\n- Preserve the first confirmed value for each field.\n- Do NOT read collected data aloud during the interview.\n- Do NOT summarize candidate data during the call.\n\nSTEP 4 – CLOSING:\nAfter completing the 8–10 interview questions, say:\n\"Thank you for your time. Your telephonic interview is complete. Based on your responses and our scoring system, shortlisted candidates will be contacted for the next round. Take care and goodbye.\"\n\nPOST-CLOSING BEHAVIOR:\n- After the closing statement, do not continue the conversation.\n- If the candidate speaks again, repeat the closing message once and stop responding.\n\nVOICE STYLE:\n- Calm, confident, human, and professional.\n- Speak like a real HR interviewer, not a chatbot.\n"

/-- Instructions of the greeting `response.create` of src/server.py
(lines 229-236).  Note the name: AIRA, not SAVIRA. -/
def old_greeting_instructions : String :=
  "Hello, I am AIRA from Kainskep Solutions. Are you currently looking for a job or considering a job change?"

/-- Instructions of the greeting `response.create` built by
`greeting_message()` in src/newServer.py (lines 172-182). -/
def new_greeting_instructions : String :=
  "Hello, I am SAVIRA from Kainskep Solutions. Are you currently looking for a job or considering a job change?"

/-- Instructions of the `final_extraction` request of src/server.py
(lines 356-374); braces of the embedded JSON template written as
code-point escapes. -/
def old_extraction_instructions : String :=
  "Extract candidate information from the full conversation so far. Return STRICT JSON ONLY with the following keys:\n\x7b\"full_name\": string or null, \"email\": string or null, \"role\": string or null, \"last_company_name\": string or null, \"experience\": string or null, \"previous_salary\": string or null, \"expected_salary\": string or null\x7d"

/-- Instructions of `extraction_prompt()` in src/newServer.py
(lines 185-204). -/
def new_extraction_instructions : String :=
  "Extract candidate information from the conversation. Return STRICT JSON only:\n\x7b\"full_name\": string|null, \"email\": string|null, \"role\": string|null, \"last_company_name\": string|null, \"experience\": string|null, \"previous_salary\": string|null, \"expected_salary\": string|null\x7d"

/-- Closing phrases of src/server.py lines 345-349. -/
def old_closing_phrases : List String :=
  ["interview is complete", "interview is done", "thank you for your time"]

/-- `closing_phrases` of src/newServer.py lines 297-303. -/
def new_closing_phrases : List String :=
  ["interview is complete", "thank you for your time", "take care and goodbye",
   "goodbye", "telephonic interview is complete"]

/-- `turn_detection` sub-object of the session configuration.
`vad_type` embeds the JSON key `type`; `padding_ms` embeds the JSON key
for the 300ms leading padding. -/
structure TurnDetection where
  vad_type : String
  threshold : Rat
  padding_ms : Nat
  silence_duration_ms : Nat
deriving DecidableEq

/-- The `session.update` payload fields that the servers set.
`transcription_model` embeds `input_audio_transcription.model`. -/
structure SessionCfg where
  modalities : List String
  instructions : String
  voice : String
  input_audio_format : String
  output_audio_format : String
  transcription_model : String
  turn_detection : TurnDetection
  temperature : Option Rat
deriving DecidableEq

/-- `session_config` of src/server.py lines 205-224 (sets temperature 0.8). -/
def old_session_cfg : SessionCfg :=
  { modalities := ["text", "audio"]
    instructions := SYSTEM_INSTRUCTIONS
    voice := "alloy"
    input_audio_format := "g711_ulaw"
    output_audio_format := "g711_ulaw"
    transcription_model := "whisper-1"
    turn_detection :=
      { vad_type := "server_vad", threshold := 0.5,
        padding_ms := 300, silence_duration_ms := 700 }
    temperature := some 0.8 }

/-- `session_config()` of src/newServer.py lines 152-169 (no temperature). -/
def new_session_cfg : SessionCfg :=
  { modalities := ["text", "audio"]
    instructions := SYSTEM_INSTRUCTIONS
    voice := "alloy"
    input_audio_format := "g711_ulaw"
    output_audio_format := "g711_ulaw"
    transcription_model := "whisper-1"
    turn_detection :=
      { vad_type := "server_vad", threshold := 0.5,
        padding_ms := 300, silence_duration_ms := 700 }
    temperature := none }

/-- Commands the servers send into the OpenAI realtime session. -/
inductive AICommand where
  | sessionUpdate (cfg : SessionCfg)
  | responseCreate (modalities : List String) (instructions : String)
  | audioAppend (audio : String)
  | audioCommit
deriving DecidableEq

/-- The extraction request of src/server.py (modalities `["text"]`). -/
def old_extraction_cmd : AICommand :=
  .responseCreate ["text"] old_extraction_instructions

/-- The extraction request of src/newServer.py (modalities `["text"]`). -/
def new_extraction_cmd : AICommand :=
  .responseCreate ["text"] new_extraction_instructions

/-- An outbound `media` message to the Twilio websocket. -/
structure TwilioMedia where
  streamSid : String
  payload : String
deriving DecidableEq

/-- Substring test on character lists: does `hay` start with `pat`? -/
def startsWithChars : List Char → List Char → Bool
  | [], _ => true
  | _ :: _, [] => false
  | p :: ps, h :: hs => p == h && startsWithChars ps hs

/-- Substring containment on character lists, the semantics of Python's
`pat in hay` for strings. -/
def containsChars : List Char → List Char → Bool
  | [], pat => pat.isEmpty
  | c :: hs, pat => startsWithChars pat (c :: hs) || containsChars hs pat

/-- Python `pat in text` on strings. -/
def pyIn (pat text : String) : Bool := containsChars text.toList pat.toList

/-- ASCII lowercasing of one character, as Python `str.lower()` acts on
the characters the closing-phrase test can match. -/
def lowerChar (c : Char) : Char :=
  if c.toNat ≥ 65 && c.toNat ≤ 90 then Char.ofNat (c.toNat + 32) else c

/-- `transcript.lower()` (ASCII fragment). -/
def pyLower (s : String) : String := String.mk (s.toList.map lowerChar)

/-- `any(phrase in transcript.lower() for phrase in phrases)` — the
closing-phrase test used by both variants on finalized assistant
transcripts. -/
def matchesClosing (phrases : List String) (transcript : String) : Bool :=
  phrases.any (fun p => pyIn p (pyLower transcript))

/-- OpenAI realtime events consumed by `openai_to_twilio`, keyed by the
`type` field of the decoded JSON event. -/
inductive OpenAIEvent where
  | sessionCreated
  | sessionUpdated
  | speechStarted
  | speechStopped
  | bufferCommitted
  | responseCreated
  | audioDelta (delta : String)
  | audioDone
  | audioTranscriptDone (transcript : String)
  | inputTranscriptionCompleted (transcript : String)
  | errorEvent
  | outputTextDelta (delta : String)
  | outputTextDone (text : String)
  | textDone (text : String)
deriving DecidableEq

/-- Mutable session state of newServer.py's `media_stream` closure:
`stream_sid` (shared with the receiver task), `extraction_done`, and the
`conversation_turns` counter local to `openai_to_twilio`. -/
structure NewState where
  stream_sid : Option String
  extraction_done : Bool
  conversation_turns : Nat
deriving DecidableEq

/-- Mutable session state of server.py's `media_stream` closure:
`stream_sid`, `interview_completed` and `extraction_requested`. -/
structure OldState where
  stream_sid : Option String
  interview_completed : Bool
  extraction_requested : Bool
deriving DecidableEq

/-- Initial state of a newServer.py session. -/
def newInit : NewState :=
  { stream_sid := none, extraction_done := false, conversation_turns := 0 }

/-- Initial state of a server.py session. -/
def oldInit : OldState :=
  { stream_sid := none, interview_completed := false, extraction_requested := false }

/-- One primitive effect of an event handler, in Python statement order:
a write to a closure variable, or an awaited network send. -/
inductive MicroOp where
  | setSid (sid : String)
  | setExtractionFlag
  | setCompletedFlag
  | incrTurns
  | sendAI (c : AICommand)
  | sendPhone (m : TwilioMedia)
deriving DecidableEq

/-- Handler bodies of newServer.py's `openai_to_twilio` event loop
(lines 262-338), one micro-op list per event, in source statement order.
The audio-delta guard `if etype == "response.audio.delta" and stream_sid:`
uses Python truthiness, so an empty-string sid also suppresses the send.
The handlers for `response.output_text.done` and `response.text.done`
only print (the former also runs the extraction parser, modelled
separately as `extract_candidate`): they touch no state and send nothing. -/
def new_handler (st : NewState) : OpenAIEvent → List MicroOp
  | .audioDelta d =>
      match st.stream_sid with
      | some sid =>
          if sid.isEmpty then []
          else [.sendPhone { streamSid := sid, payload := d }]
      | none => []
  | .inputTranscriptionCompleted _ =>
      .incrTurns ::
        (if st.extraction_done = false ∧ 15 < st.conversation_turns + 1 then
          [.setExtractionFlag, .sendAI new_extraction_cmd]
        else [])
  | .audioTranscriptDone t =>
      if st.extraction_done = false ∧ matchesClosing new_closing_phrases t = true then
        [.setExtractionFlag, .sendAI new_extraction_cmd]
      else []
  | _ => []

/-- Handler bodies of server.py's `openai_to_twilio` event loop
(lines 292-402).  The user-transcript handler only prints (server.py has
no turn counter); the assistant-transcript handler sets
`extraction_requested` and `interview_completed` and then awaits the
extraction send, in that source order. -/
def old_handler (st : OldState) : OpenAIEvent → List MicroOp
  | .audioDelta d =>
      match st.stream_sid with
      | some sid =>
          if sid.isEmpty then []
          else [.sendPhone { streamSid := sid, payload := d }]
      | none => []
  | .audioTranscriptDone t =>
      if st.extraction_requested = false ∧ matchesClosing old_closing_phrases t = true then
        [.setExtractionFlag, .setCompletedFlag, .sendAI old_extraction_cmd]
      else []
  | _ => []

/-- Effect of one micro-op on the newServer.py state. -/
def NewState.applyOp (st : NewState) : MicroOp → NewState
  | .setSid s => { st with stream_sid := some s }
  | .setExtractionFlag => { st with extraction_done := true }
  | .incrTurns => { st with conversation_turns := st.conversation_turns + 1 }
  | _ => st

/-- Effect of a micro-op list on the newServer.py state. -/
def NewState.applyOps (st : NewState) : List MicroOp → NewState
  | [] => st
  | op :: ops => (st.applyOp op).applyOps ops

/-- Effect of one micro-op on the server.py state. -/
def OldState.applyOp (st : OldState) : MicroOp → OldState
  | .setSid s => { st with stream_sid := some s }
  | .setExtractionFlag => { st with extraction_requested := true }
  | .setCompletedFlag => { st with interview_completed := true }
  | _ => st

/-- Effect of a micro-op list on the server.py state. -/
def OldState.applyOps (st : OldState) : List MicroOp → OldState
  | [] => st
  | op :: ops => (st.applyOp op).applyOps ops

/-- Commands sent into the AI session by a micro-op list, in order. -/
def opsAICmds : List MicroOp → List AICommand
  | [] => []
  | .sendAI c :: ops => c :: opsAICmds ops
  | _ :: ops => opsAICmds ops

/-- Media messages sent to the phone websocket by a micro-op list. -/
def opsPhoneOut : List MicroOp → List TwilioMedia
  | [] => []
  | .sendPhone m :: ops => m :: opsPhoneOut ops
  | _ :: ops => opsPhoneOut ops

/-- One full iteration of newServer.py's `openai_to_twilio` loop on one
event: resulting state, AI-bound commands, phone-bound media. -/
def new_step (st : NewState) (e : OpenAIEvent) :
    NewState × List AICommand × List TwilioMedia :=
  let ops := new_handler st e
  (st.applyOps ops, opsAICmds ops, opsPhoneOut ops)

/-- One full iteration of server.py's `openai_to_twilio` loop on one event. -/
def old_step (st : OldState) (e : OpenAIEvent) :
    OldState × List AICommand × List TwilioMedia :=
  let ops := old_handler st e
  (st.applyOps ops, opsAICmds ops, opsPhoneOut ops)

/-- Run of newServer.py's event loop over a list of events. -/
def new_ai_run (st : NewState) : List OpenAIEvent → NewState × List AICommand × List TwilioMedia
  | [] => (st, [], [])
  | e :: es =>
      let r := new_step st e
      let rr := new_ai_run r.1 es
      (rr.1, r.2.1 ++ rr.2.1, r.2.2 ++ rr.2.2)

/-- Run of server.py's event loop over a list of events. -/
def old_ai_run (st : OldState) : List OpenAIEvent → OldState × List AICommand × List TwilioMedia
  | [] => (st, [], [])
  | e :: es =>
      let r := old_step st e
      let rr := old_ai_run r.1 es
      (rr.1, r.2.1 ++ rr.2.1, r.2.2 ++ rr.2.2)

/-- Is this command the newServer.py extraction request?  The two
`response.create` commands newServer.py ever sends (greeting, extraction)
are told apart by their instruction text. -/
def isNewExtractionReq : AICommand → Bool
  | .responseCreate _ ins => ins == new_extraction_instructions
  | _ => false

/-- Is this command the server.py extraction request? -/
def isOldExtractionReq : AICommand → Bool
  | .responseCreate _ ins => ins == old_extraction_instructions
  | _ => false

/-- Number of newServer.py extraction requests in a command list. -/
def new_ext_count (cs : List AICommand) : Nat := cs.countP isNewExtractionReq

/-- Number of server.py extraction requests in a command list. -/
def old_ext_count (cs : List AICommand) : Nat := cs.countP isOldExtractionReq

/-- An inbound Twilio frame as seen by `twilio_to_openai` after
`json.loads`.  A `none` payload models a frame whose expected nested field
(`start.streamSid`, `media.payload`) is missing; `noEventField` models a
frame with no `event` key at all; `other` is a frame whose `event` value
matches none of the handled cases (the if/elif chain falls through). -/
inductive TwilioFrame where
  | start (streamSid : Option String)
  | media (payload : Option String)
  | stop
  | other (event : String)
  | noEventField
deriving DecidableEq

/-- One result of awaiting `websocket.receive_text()`: a frame, or the
WebSocketDisconnect condition. -/
inductive RecvItem where
  | frame (f : TwilioFrame)
  | disconnect
deriving DecidableEq

/-- A frame is malformed when accessing one of its expected fields raises
`KeyError` in the Python handler. -/
def frameMalformed : TwilioFrame → Bool
  | .start none => true
  | .media none => true
  | .noEventField => true
  | _ => false

/-- AI-session commands emitted for one well-formed, non-breaking handling
of a frame (`media` appends audio; `stop` commits the buffer; nothing else
sends). -/
def frame_cmds : TwilioFrame → List AICommand
  | .media (some p) => [.audioAppend p]
  | .stop => [.audioCommit]
  | _ => []

/-- Update of the shared `stream_sid` by one frame (only a well-formed
`start` writes it). -/
def frame_sid (sid : Option String) : TwilioFrame → Option String
  | .start (some s) => some s
  | _ => sid

/-- How the receiver loop ends. -/
inductive RecvExit where
  | onStop
  | onMalformedBreak
  | onRaise
  | onDisconnect
  | inputEnded
deriving DecidableEq

/-- `twilio_to_openai` of src/server.py (lines 244-290): every frame is
handled inside `try`; `WebSocketDisconnect` breaks the loop, and any other
exception — in particular the `KeyError` from a malformed frame — is caught
by `except Exception`, logged, and ALSO breaks the loop.  `stop` sends the
buffer commit and breaks. -/
def old_recv_run (sid : Option String) : List RecvItem → Option String × List AICommand × RecvExit
  | [] => (sid, [], .inputEnded)
  | .disconnect :: _ => (sid, [], .onDisconnect)
  | .frame f :: rest =>
      if frameMalformed f = true then (sid, [], .onMalformedBreak)
      else
        match f with
        | .stop => (sid, [.audioCommit], .onStop)
        | _ =>
            let r := old_recv_run (frame_sid sid f) rest
            (r.1, frame_cmds f ++ r.2.1, r.2.2)

/-- `twilio_to_openai` of src/newServer.py (lines 231-258): only
`WebSocketDisconnect` is caught (around the whole loop); the `KeyError`
from a malformed frame propagates out of the task uncaught. -/
def new_recv_run (sid : Option String) : List RecvItem → Option String × List AICommand × RecvExit
  | [] => (sid, [], .inputEnded)
  | .disconnect :: _ => (sid, [], .onDisconnect)
  | .frame f :: rest =>
      if frameMalformed f = true then (sid, [], .onRaise)
      else
        match f with
        | .stop => (sid, [.audioCommit], .onStop)
        | _ =>
            let r := new_recv_run (frame_sid sid f) rest
            (r.1, frame_cmds f ++ r.2.1, r.2.2)

/-- How handling one frame leaves the receiver loop. -/
inductive FrameOutcome where
  | continueLoop
  | breakLoop
  | raiseErr
deriving DecidableEq

/-- server.py per-frame loop control: malformed frames and `stop` break. -/
def old_frame_outcome (f : TwilioFrame) : FrameOutcome :=
  if frameMalformed f = true then .breakLoop
  else match f with
  | .stop => .breakLoop
  | _ => .continueLoop

/-- newServer.py per-frame loop control: malformed frames raise, `stop`
breaks. -/
def new_frame_outcome (f : TwilioFrame) : FrameOutcome :=
  if frameMalformed f = true then .raiseErr
  else match f with
  | .stop => .breakLoop
  | _ => .continueLoop

/-- One scheduling item of a session: the phone-side task receives a frame
or a disconnect, the AI-side task receives an event, or the AI connection
closes under the AI-side task. -/
inductive SessItem where
  | phone (i : RecvItem)
  | ai (e : OpenAIEvent)
  | aiConnClosed
deriving DecidableEq

/-- Joint state of a newServer.py session: the shared closure state plus
whether each of the two gathered tasks has terminated.  `asyncio.gather`
without `return_exceptions` does not cancel the sibling task when one
terminates or raises — the survivor keeps consuming its own connection —
so a done flag only silences the task it belongs to. -/
structure NewSess where
  st : NewState
  phoneDone : Bool
  aiDone : Bool
deriving DecidableEq

/-- Joint state of a server.py session. -/
structure OldSess where
  st : OldState
  phoneDone : Bool
  aiDone : Bool
deriving DecidableEq

/-- One scheduling step of a newServer.py session.  A phone item is
processed by the receiver-loop body unless that task already terminated;
an AI event is processed by the event-loop body unless that task already
terminated (the AI loop of newServer.py has no handler that breaks: it
ends only when `openai_ws.recv()` raises, modelled by `aiConnClosed`). -/
def new_sess_step (s : NewSess) : SessItem → NewSess × List AICommand × List TwilioMedia
  | .phone it =>
      if s.phoneDone = true then (s, [], [])
      else
        match it with
        | .disconnect => ({ s with phoneDone := true }, [], [])
        | .frame f =>
            let s1 := { s with st := { s.st with stream_sid := frame_sid s.st.stream_sid f } }
            match new_frame_outcome f with
            | .continueLoop => (s1, frame_cmds f, [])
            | _ => ({ s1 with phoneDone := true }, frame_cmds f, [])
  | .ai e =>
      if s.aiDone = true then (s, [], [])
      else
        let r := new_step s.st e
        ({ s with st := r.1 }, r.2.1, r.2.2)
  | .aiConnClosed =>
      if s.aiDone = true then (s, [], [])
      else ({ s with aiDone := true }, [], [])

/-- One scheduling step of a server.py session (same shape; server.py's AI
loop catches `ConnectionClosed` and breaks, which is the same `aiDone`
transition). -/
def old_sess_step (s : OldSess) : SessItem → OldSess × List AICommand × List TwilioMedia
  | .phone it =>
      if s.phoneDone = true then (s, [], [])
      else
        match it with
        | .disconnect => ({ s with phoneDone := true }, [], [])
        | .frame f =>
            let s1 := { s with st := { s.st with stream_sid := frame_sid s.st.stream_sid f } }
            match old_frame_outcome f with
            | .continueLoop => (s1, frame_cmds f, [])
            | _ => ({ s1 with phoneDone := true }, frame_cmds f, [])
  | .ai e =>
      if s.aiDone = true then (s, [], [])
      else
        let r := old_step s.st e
        ({ s with st := r.1 }, r.2.1, r.2.2)
  | .aiConnClosed =>
      if s.aiDone = true then (s, [], [])
      else ({ s with aiDone := true }, [], [])

/-- Run of a newServer.py session over an interleaving of the two tasks. -/
def new_sess_run (s : NewSess) : List SessItem → NewSess × List AICommand × List TwilioMedia
  | [] => (s, [], [])
  | it :: its =>
      let r := new_sess_step s it
      let rr := new_sess_run r.1 its
      (rr.1, r.2.1 ++ rr.2.1, r.2.2 ++ rr.2.2)

/-- Run of a server.py session over an interleaving of the two tasks. -/
def old_sess_run (s : OldSess) : List SessItem → OldSess × List AICommand × List TwilioMedia
  | [] => (s, [], [])
  | it :: its =>
      let r := old_sess_step s it
      let rr := old_sess_run r.1 its
      (rr.1, r.2.1 ++ rr.2.1, r.2.2 ++ rr.2.2)

/-- Initial joint state of a newServer.py session. -/
def newSessInit : NewSess := { st := newInit, phoneDone := false, aiDone := false }

/-- Initial joint state of a server.py session. -/
def oldSessInit : OldSess := { st := oldInit, phoneDone := false, aiDone := false }

/-- What a whole session did: all commands sent into the AI session (in
order), all media sent to the phone, and whether the server code ever
closed the AI connection. -/
structure SessionResult where
  aiCommands : List AICommand
  phoneOut : List TwilioMedia
  aiConnectionClosed : Bool
deriving DecidableEq

/-- The two startup commands of src/server.py `media_stream`
(lines 204-241): session configuration, then the greeting request. -/
def old_startup_cmds : List AICommand :=
  [.sessionUpdate old_session_cfg,
   .responseCreate ["text", "audio"] old_greeting_instructions]

/-- The two startup commands of src/newServer.py `media_stream`
(lines 226-227). -/
def new_startup_cmds : List AICommand :=
  [.sessionUpdate new_session_cfg,
   .responseCreate ["text", "audio"] new_greeting_instructions]

/-- A whole newServer.py session: the two startup sends, then the joined
pair of tasks.  src/newServer.py contains no statement that closes
`openai_ws` — `media_stream` (line 340) just awaits `asyncio.gather` with
no `finally` — so `aiConnectionClosed` is `false` on every trace. -/
def new_session (trace : List SessItem) : SessionResult :=
  let r := new_sess_run newSessInit trace
  { aiCommands := new_startup_cmds ++ r.2.1
    phoneOut := r.2.2
    aiConnectionClosed := false }

/-- A whole server.py session: the two startup sends, then the joined pair
of tasks.  src/server.py closes `openai_ws` in the `finally` of
`media_stream` (lines 414-417), which runs after `asyncio.gather` returns;
both of server.py's task bodies catch all their exceptions and `break`, so
gather returns exactly when both tasks have terminated. -/
def old_session (trace : List SessItem) : SessionResult :=
  let r := old_sess_run oldSessInit trace
  { aiCommands := old_startup_cmds ++ r.2.1
    phoneOut := r.2.2
    aiConnectionClosed := r.1.phoneDone && r.1.aiDone }

/-- JSON values, as decoded by `json.loads` in newServer.py's extraction
handler.  Number literals are kept as their lexeme; objects keep their
members in source order (lookup below takes the last binding, matching
Python dict construction where a duplicate key overwrites). -/
inductive Json where
  | null
  | bool (b : Bool)
  | num (lit : String)
  | str (s : String)
  | arr (elems : List Json)
  | obj (members : List (String × Json))

/-- JSON whitespace skipping. -/
def skipWs : List Char → List Char
  | c :: cs => if c == ' ' || c == '\t' || c == '\n' || c == '\r' then skipWs cs else c :: cs
  | [] => []

/-- Consume an expected literal character sequence. -/
def stripLit : List Char → List Char → Option (List Char)
  | [], cs => some cs
  | p :: ps, c :: cs => if p == c then stripLit ps cs else none
  | _ :: _, [] => none

/-- Body of a JSON string after the opening quote, strict mode: raw
control characters are rejected, as are escapes other than the simple
ones (in particular `\uXXXX` is not modelled; no extraction-field content
in this development uses it). -/
def parseStringBody (acc : List Char) : List Char → Option (String × List Char)
  | [] => none
  | c :: cs =>
      if c == '"' then some (String.mk acc.reverse, cs)
      else if c == '\\' then
        match cs with
        | [] => none
        | e :: cs1 =>
            if e == '"' then parseStringBody ('"' :: acc) cs1
            else if e == '\\' then parseStringBody ('\\' :: acc) cs1
            else if e == '/' then parseStringBody ('/' :: acc) cs1
            else if e == 'n' then parseStringBody ('\n' :: acc) cs1
            else if e == 't' then parseStringBody ('\t' :: acc) cs1
            else if e == 'r' then parseStringBody ('\r' :: acc) cs1
            else if e == 'b' then parseStringBody (Char.ofNat 8 :: acc) cs1
            else if e == 'f' then parseStringBody (Char.ofNat 12 :: acc) cs1
            else none
      else if c.toNat < 32 then none
      else parseStringBody (c :: acc) cs

/-- Longest run of leading digits. -/
def takeDigits : List Char → List Char × List Char
  | c :: cs =>
      if c.isDigit then
        let r := takeDigits cs
        (c :: r.1, r.2)
      else ([], c :: cs)
  | [] => ([], [])

/-- JSON number lexeme: `-? (0 | [1-9][0-9]*) frac? exp?`. -/
def parseNumber (cs : List Char) : Option (String × List Char) :=
  let signed : List Char × List Char :=
    match cs with
    | '-' :: rest => (['-'], rest)
    | _ => ([], cs)
  match signed.2 with
  | [] => none
  | c :: rest =>
      if c == '0' then
        let afterInt : List Char × List Char := (signed.1 ++ ['0'], rest)
        let afterFrac : Option (List Char × List Char) :=
          match afterInt.2 with
          | '.' :: r1 =>
              let d := takeDigits r1
              if d.1.isEmpty then none else some (afterInt.1 ++ '.' :: d.1, d.2)
          | _ => some afterInt
        match afterFrac with
        | none => none
        | some af =>
            match af.2 with
            | 'e' :: r2 =>
                let s2 := match r2 with
                  | '+' :: r3 => (['e', '+'], r3)
                  | '-' :: r3 => (['e', '-'], r3)
                  | _ => (['e'], r2)
                let d := takeDigits s2.2
                if d.1.isEmpty then none else some (String.mk (af.1 ++ s2.1 ++ d.1), d.2)
            | 'E' :: r2 =>
                let s2 := match r2 with
                  | '+' :: r3 => (['E', '+'], r3)
                  | '-' :: r3 => (['E', '-'], r3)
                  | _ => (['E'], r2)
                let d := takeDigits s2.2
                if d.1.isEmpty then none else some (String.mk (af.1 ++ s2.1 ++ d.1), d.2)
            | _ => some (String.mk af.1, af.2)
      else if c.isDigit then
        let d := takeDigits (c :: rest)
        let afterInt : List Char × List Char := (signed.1 ++ d.1, d.2)
        let afterFrac : Option (List Char × List Char) :=
          match afterInt.2 with
          | '.' :: r1 =>
              let d1 := takeDigits r1
              if d1.1.isEmpty then none else some (afterInt.1 ++ '.' :: d1.1, d1.2)
          | _ => some afterInt
        match afterFrac with
        | none => none
        | some af =>
            match af.2 with
            | 'e' :: r2 =>
                let s2 := match r2 with
                  | '+' :: r3 => (['e', '+'], r3)
                  | '-' :: r3 => (['e', '-'], r3)
                  | _ => (['e'], r2)
                let d1 := takeDigits s2.2
                if d1.1.isEmpty then none else some (String.mk (af.1 ++ s2.1 ++ d1.1), d1.2)
            | 'E' :: r2 =>
                let s2 := match r2 with
                  | '+' :: r3 => (['E', '+'], r3)
                  | '-' :: r3 => (['E', '-'], r3)
                  | _ => (['E'], r2)
                let d1 := takeDigits s2.2
                if d1.1.isEmpty then none else some (String.mk (af.1 ++ s2.1 ++ d1.1), d1.2)
            | _ => some (String.mk af.1, af.2)
      else none

/-- One pending task of the recursive-descent JSON parser: parse a value,
or continue an object/array body.  A single fuel-indexed function over
this task type keeps the recursion structural (so that closed parses
reduce by evaluation); the fuel passed at top level cannot run out on an
accepted input. -/
inductive PTask where
  | value (cs : List Char)
  | membersStart (cs : List Char)
  | members (acc : List (String × Json)) (cs : List Char)
  | elemsStart (cs : List Char)
  | elems (acc : List Json) (cs : List Char)

/-- Recursive-descent JSON parser. -/
def parseRun : Nat → PTask → Option (Json × List Char)
  | 0, _ => none
  | fuel + 1, .value cs =>
      match skipWs cs with
      | [] => none
      | c :: rest =>
          if c == 'n' then
            match stripLit ['u', 'l', 'l'] rest with
            | some r => some (Json.null, r)
            | none => none
          else if c == 't' then
            match stripLit ['r', 'u', 'e'] rest with
            | some r => some (Json.bool true, r)
            | none => none
          else if c == 'f' then
            match stripLit ['a', 'l', 's', 'e'] rest with
            | some r => some (Json.bool false, r)
            | none => none
          else if c == '"' then
            match parseStringBody [] rest with
            | some sr => some (Json.str sr.1, sr.2)
            | none => none
          else if c == lbrace then parseRun fuel (.membersStart rest)
          else if c == '[' then parseRun fuel (.elemsStart rest)
          else if c == '-' || c.isDigit then
            match parseNumber (c :: rest) with
            | some nr => some (Json.num nr.1, nr.2)
            | none => none
          else none
  | fuel + 1, .membersStart cs =>
      match skipWs cs with
      | [] => none
      | c :: rest =>
          if c == rbrace then some (Json.obj [], rest)
          else parseRun fuel (.members [] (c :: rest))
  | fuel + 1, .members acc cs =>
      match skipWs cs with
      | '"' :: rest =>
          match parseStringBody [] rest with
          | none => none
          | some kr =>
              match skipWs kr.2 with
              | ':' :: rest2 =>
                  match parseRun fuel (.value rest2) with
                  | none => none
                  | some vr =>
                      match skipWs vr.2 with
                      | c :: rest3 =>
                          if c == ',' then parseRun fuel (.members (acc ++ [(kr.1, vr.1)]) rest3)
                          else if c == rbrace then some (Json.obj (acc ++ [(kr.1, vr.1)]), rest3)
                          else none
                      | [] => none
              | _ => none
      | _ => none
  | fuel + 1, .elemsStart cs =>
      match skipWs cs with
      | ']' :: rest => some (Json.arr [], rest)
      | cs1 => parseRun fuel (.elems [] cs1)
  | fuel + 1, .elems acc cs =>
      match parseRun fuel (.value cs) with
      | none => none
      | some vr =>
          match skipWs vr.2 with
          | ',' :: rest => parseRun fuel (.elems (acc ++ [vr.1]) rest)
          | ']' :: rest => some (Json.arr (acc ++ [vr.1]), rest)
          | _ => none

/-- Strict decode of a whole string, the contract of `json.loads`: one
value, optionally surrounded by whitespace, nothing else. -/
def jsonParse (s : String) : Option Json :=
  match parseRun (2 * s.length + 8) (.value s.toList) with
  | some vr => if (skipWs vr.2).isEmpty then some vr.1 else none
  | none => none

/-- Semantics of `re.search(r'\x7b.*\x7d', text, re.DOTALL)` followed by
`.group()`: with a greedy `.*` under DOTALL the leftmost match runs from
the first left brace to the last right brace of the whole text, and a
match exists exactly when the first left brace lies before the last right
brace. -/
def braceSpan (s : String) : Option String :=
  let cs := s.toList
  match cs.findIdx? (fun c => c == lbrace) with
  | none => none
  | some i =>
      match cs.reverse.findIdx? (fun c => c == rbrace) with
      | none => none
      | some rj =>
          let j := cs.length - 1 - rj
          if i < j then some (String.mk ((cs.drop i).take (j - i + 1))) else none

/-- The extraction parser of newServer.py's `response.output_text.done`
handler (lines 310-332): find the brace-delimited substring, then
strictly JSON-decode it; any failure (no match, or a decode error) is
caught, logged, and yields nothing. -/
def extract_candidate (text : String) : Option Json :=
  match braceSpan text with
  | none => none
  | some sub => jsonParse sub

/-- Field lookup in a decoded candidate object, with Python-dict
last-binding-wins semantics. -/
def Json.lookupKey : Json → String → Option Json
  | .obj kvs, k => (kvs.reverse.find? (fun kv => kv.1 == k)).map (fun kv => kv.2)
  | _, _ => none

/-- Remaining extraction-request budget of a newServer.py state: one until
`extraction_done` is set, zero after. -/
def potNew (st : NewState) : Nat := if st.extraction_done then 0 else 1

/-- Remaining extraction-request budget of a server.py state. -/
def potOld (st : OldState) : Nat := if st.extraction_requested then 0 else 1

lemma isNewExtractionReq_cmd : isNewExtractionReq new_extraction_cmd = true := by
  simp [isNewExtractionReq, new_extraction_cmd]

lemma isOldExtractionReq_cmd : isOldExtractionReq old_extraction_cmd = true := by
  simp [isOldExtractionReq, old_extraction_cmd]

lemma new_ext_count_append (a b : List AICommand) :
    new_ext_count (a ++ b) = new_ext_count a + new_ext_count b :=
  List.countP_append ..

lemma old_ext_count_append (a b : List AICommand) :
    old_ext_count (a ++ b) = old_ext_count a + old_ext_count b :=
  List.countP_append ..

/-- Each newServer.py event-loop iteration spends at most the remaining
extraction budget: it can emit an extraction request only while
`extraction_done` is unset, and doing so sets the flag. -/
lemma new_step_count (st : NewState) (e : OpenAIEvent) :
    new_ext_count (new_step st e).2.1 + potNew (new_step st e).1 ≤ potNew st := by
  cases e with
  | audioDelta d =>
      cases h : st.stream_sid with
      | none =>
          simp [new_step, new_handler, h, NewState.applyOps, opsAICmds, new_ext_count, potNew]
      | some sid =>
          by_cases he : sid.isEmpty <;>
            simp [new_step, new_handler, h, he, NewState.applyOps, NewState.applyOp,
                  opsAICmds, new_ext_count, potNew]
  | inputTranscriptionCompleted t =>
      by_cases hc : st.extraction_done = false ∧ 15 < st.conversation_turns + 1
      · simp [new_step, new_handler, hc, NewState.applyOps, NewState.applyOp, opsAICmds,
              new_ext_count, potNew, isNewExtractionReq_cmd, List.countP_cons, hc.1]
      · simp [new_step, new_handler, hc, NewState.applyOps, NewState.applyOp, opsAICmds,
              new_ext_count, potNew]
  | audioTranscriptDone t =>
      by_cases hc : st.extraction_done = false ∧ matchesClosing new_closing_phrases t = true
      · simp [new_step, new_handler, hc, NewState.applyOps, NewState.applyOp, opsAICmds,
              new_ext_count, potNew, isNewExtractionReq_cmd, List.countP_cons, hc.1]
      · simp [new_step, new_handler, hc, NewState.applyOps, NewState.applyOp, opsAICmds,
              new_ext_count, potNew]
  | sessionCreated =>
      simp [new_step, new_handler, NewState.applyOps, opsAICmds, new_ext_count]
  | sessionUpdated =>
      simp [new_step, new_handler, NewState.applyOps, opsAICmds, new_ext_count]
  | speechStarted =>
      simp [new_step, new_handler, NewState.applyOps, opsAICmds, new_ext_count]
  | speechStopped =>
      simp [new_step, new_handler, NewState.applyOps, opsAICmds, new_ext_count]
  | bufferCommitted =>
      simp [new_step, new_handler, NewState.applyOps, opsAICmds, new_ext_count]
  | responseCreated =>
      simp [new_step, new_handler, NewState.applyOps, opsAICmds, new_ext_count]
  | audioDone =>
      simp [new_step, new_handler, NewState.applyOps, opsAICmds, new_ext_count]
  | errorEvent =>
      simp [new_step, new_handler, NewState.applyOps, opsAICmds, new_ext_count]
  | outputTextDelta d =>
      simp [new_step, new_handler, NewState.applyOps, opsAICmds, new_ext_count]
  | outputTextDone t =>
      simp [new_step, new_handler, NewState.applyOps, opsAICmds, new_ext_count]
  | textDone t =>
      simp [new_step, new_handler, NewState.applyOps, opsAICmds, new_ext_count]

/-- server.py counterpart of `new_step_count`. -/
lemma old_step_count (st : OldState) (e : OpenAIEvent) :
    old_ext_count (old_step st e).2.1 + potOld (old_step st e).1 ≤ potOld st := by
  cases e with
  | audioDelta d =>
      cases h : st.stream_sid with
      | none =>
          simp [old_step, old_handler, h, OldState.applyOps, opsAICmds, old_ext_count, potOld]
      | some sid =>
          by_cases he : sid.isEmpty <;>
            simp [old_step, old_handler, h, he, OldState.applyOps, OldState.applyOp,
                  opsAICmds, old_ext_count, potOld]
  | audioTranscriptDone t =>
      by_cases hc : st.extraction_requested = false ∧ matchesClosing old_closing_phrases t = true
      · simp [old_step, old_handler, hc, OldState.applyOps, OldState.applyOp, opsAICmds,
              old_ext_count, potOld, isOldExtractionReq_cmd, List.countP_cons, hc.1]
      · simp [old_step, old_handler, hc, OldState.applyOps, OldState.applyOp, opsAICmds,
              old_ext_count, potOld]
  | sessionCreated =>
      simp [old_step, old_handler, OldState.applyOps, opsAICmds, old_ext_count]
  | sessionUpdated =>
      simp [old_step, old_handler, OldState.applyOps, opsAICmds, old_ext_count]
  | speechStarted =>
      simp [old_step, old_handler, OldState.applyOps, opsAICmds, old_ext_count]
  | speechStopped =>
      simp [old_step, old_handler, OldState.applyOps, opsAICmds, old_ext_count]
  | bufferCommitted =>
      simp [old_step, old_handler, OldState.applyOps, opsAICmds, old_ext_count]
  | responseCreated =>
      simp [old_step, old_handler, OldState.applyOps, opsAICmds, old_ext_count]
  | audioDone =>
      simp [old_step, old_handler, OldState.applyOps, opsAICmds, old_ext_count]
  | inputTranscriptionCompleted t =>
      simp [old_step, old_handler, OldState.applyOps, opsAICmds, old_ext_count]
  | errorEvent =>
      simp [old_step, old_handler, OldState.applyOps, opsAICmds, old_ext_count]
  | outputTextDelta d =>
      simp [old_step, old_handler, OldState.applyOps, opsAICmds, old_ext_count]
  | outputTextDone t =>
      simp [old_step, old_handler, OldState.applyOps, opsAICmds, old_ext_count]
  | textDone t =>
      simp [old_step, old_handler, OldState.applyOps, opsAICmds, old_ext_count]

/-- Frame-receiver commands are audio appends/commits, never a
`response.create`, so they contain no newServer.py extraction request. -/
lemma frame_cmds_new_count (f : TwilioFrame) : new_ext_count (frame_cmds f) = 0 := by
  cases f with
  | media p => cases p <;> simp [frame_cmds, new_ext_count, isNewExtractionReq]
  | start s => cases s <;> simp [frame_cmds, new_ext_count]
  | _ => simp [frame_cmds, new_ext_count, isNewExtractionReq]

/-- server.py counterpart of `frame_cmds_new_count`. -/
lemma frame_cmds_old_count (f : TwilioFrame) : old_ext_count (frame_cmds f) = 0 := by
  cases f with
  | media p => cases p <;> simp [frame_cmds, old_ext_count, isOldExtractionReq]
  | start s => cases s <;> simp [frame_cmds, old_ext_count]
  | _ => simp [frame_cmds, old_ext_count, isOldExtractionReq]

/-- One session scheduling step spends at most the remaining extraction
budget (newServer.py). -/
lemma new_sess_step_count (s : NewSess) (it : SessItem) :
    new_ext_count (new_sess_step s it).2.1 + potNew (new_sess_step s it).1.st ≤ potNew s.st := by
  cases it with
  | phone i =>
      by_cases hp : s.phoneDone = true
      · simp [new_sess_step, hp, new_ext_count]
      · cases i with
        | disconnect => simp [new_sess_step, hp, new_ext_count]
        | frame f =>
            cases hout : new_frame_outcome f <;>
              simp [new_sess_step, hp, hout, frame_cmds_new_count, potNew]
  | ai e =>
      by_cases ha : s.aiDone = true
      · simp [new_sess_step, ha, new_ext_count]
      · have h := new_step_count s.st e
        simpa [new_sess_step, ha] using h
  | aiConnClosed =>
      by_cases ha : s.aiDone = true <;> simp [new_sess_step, ha, new_ext_count]

/-- One session scheduling step spends at most the remaining extraction
budget (server.py). -/
lemma old_sess_step_count (s : OldSess) (it : SessItem) :
    old_ext_count (old_sess_step s it).2.1 + potOld (old_sess_step s it).1.st ≤ potOld s.st := by
  cases it with
  | phone i =>
      by_cases hp : s.phoneDone = true
      · simp [old_sess_step, hp, old_ext_count]
      · cases i with
        | disconnect => simp [old_sess_step, hp, old_ext_count]
        | frame f =>
            cases hout : old_frame_outcome f <;>
              simp [old_sess_step, hp, hout, frame_cmds_old_count, potOld]
  | ai e =>
      by_cases ha : s.aiDone = true
      · simp [old_sess_step, ha, old_ext_count]
      · have h := old_step_count s.st e
        simpa [old_sess_step, ha] using h
  | aiConnClosed =>
      by_cases ha : s.aiDone = true <;> simp [old_sess_step, ha, old_ext_count]

/-- A whole newServer.py session run spends at most the initial budget. -/
lemma new_sess_run_count (tr : List SessItem) : ∀ s : NewSess,
    new_ext_count (new_sess_run s tr).2.1 + potNew (new_sess_run s tr).1.st ≤ potNew s.st := by
  induction tr with
  | nil => intro s; simp [new_sess_run, new_ext_count]
  | cons it its ih =>
      intro s
      have h1 := new_sess_step_count s it
      have h2 := ih (new_sess_step s it).1
      simp only [new_sess_run, new_ext_count_append]
      omega

/-- A whole server.py session run spends at most the initial budget. -/
lemma old_sess_run_count (tr : List SessItem) : ∀ s : OldSess,
    old_ext_count (old_sess_run s tr).2.1 + potOld (old_sess_run s tr).1.st ≤ potOld s.st := by
  induction tr with
  | nil => intro s; simp [old_sess_run, old_ext_count]
  | cons it its ih =>
      intro s
      have h1 := old_sess_step_count s it
      have h2 := ih (old_sess_step s it).1
      simp only [old_sess_run, old_ext_count_append]
      omega

lemma new_startup_count : new_ext_count new_startup_cmds = 0 := by
  simp [new_startup_cmds, new_ext_count, isNewExtractionReq, new_greeting_instructions,
        new_extraction_instructions]

lemma old_startup_count : old_ext_count old_startup_cmds = 0 := by
  simp [old_startup_cmds, old_ext_count, isOldExtractionReq, old_greeting_instructions,
        old_extraction_instructions]

/-- C1.  Over any interleaved schedule of the two session tasks — any mix
of inbound frames, AI events (including arbitrarily many further
closing-phrase transcripts and user turns after the first trigger), and
connection closures — at most one extraction request is ever sent into
the AI session, in both server variants. -/
theorem extraction_request_at_most_once (tr : List SessItem) :
    new_ext_count (new_session tr).aiCommands ≤ 1 ∧
    old_ext_count (old_session tr).aiCommands ≤ 1 := by
  constructor
  · have h := new_sess_run_count tr newSessInit
    have hpot : potNew newSessInit.st = 1 := rfl
    simp only [new_session, new_ext_count_append, new_startup_count]
    omega
  · have h := old_sess_run_count tr oldSessInit
    have hpot : potOld oldSessInit.st = 1 := rfl
    simp only [old_session, old_ext_count_append, old_startup_count]
    omega

/-- The event loop alone also spends at most the remaining budget. -/
lemma new_ai_run_count (es : List OpenAIEvent) : ∀ st : NewState,
    new_ext_count (new_ai_run st es).2.1 + potNew (new_ai_run st es).1 ≤ potNew st := by
  induction es with
  | nil => intro st; simp [new_ai_run, new_ext_count]
  | cons e es ih =>
      intro st
      have h1 := new_step_count st e
      have h2 := ih (new_step st e).1
      simp only [new_ai_run, new_ext_count_append]
      omega

/-- Once `extraction_done` is set, no run of the newServer.py event loop
emits another extraction request. -/
lemma new_ai_run_done (es : List OpenAIEvent) (st : NewState)
    (h : st.extraction_done = true) :
    new_ext_count (new_ai_run st es).2.1 = 0 := by
  have hc := new_ai_run_count es st
  have hp : potNew st = 0 := by simp [potNew, h]
  omega

/-- A run of user-transcript events only: with the flag unset and
`conversation_turns = t ≤ 15`, the fallback fires exactly once as soon as
the counter passes 15, independently of the transcript texts. -/
lemma new_user_turns_count (ts : List String) : ∀ t : Nat, ∀ sid : Option String, t ≤ 15 →
    new_ext_count (new_ai_run { stream_sid := sid, extraction_done := false, conversation_turns := t }
      (ts.map OpenAIEvent.inputTranscriptionCompleted)).2.1 =
      if 15 < t + ts.length then 1 else 0 := by
  induction ts with
  | nil =>
      intro t sid ht
      simp only [List.length_nil, List.map_nil, new_ai_run, new_ext_count, List.countP_nil]
      rw [if_neg (by omega)]
  | cons x xs ih =>
      intro t sid ht
      by_cases h16 : 15 < t + 1
      · have hstep : new_step { stream_sid := sid, extraction_done := false, conversation_turns := t }
            (OpenAIEvent.inputTranscriptionCompleted x) =
            ({ stream_sid := sid, extraction_done := true, conversation_turns := t + 1 },
             [new_extraction_cmd], []) := by
          simp [new_step, new_handler, h16, NewState.applyOps, NewState.applyOp, opsAICmds, opsPhoneOut]
        rw [if_pos (by simp; omega)]
        simp only [List.map_cons, new_ai_run, hstep, new_ext_count_append]
        rw [new_ai_run_done _ _ rfl]
        simp [new_ext_count, List.countP_cons, isNewExtractionReq_cmd]
      · have hstep : new_step { stream_sid := sid, extraction_done := false, conversation_turns := t }
            (OpenAIEvent.inputTranscriptionCompleted x) =
            ({ stream_sid := sid, extraction_done := false, conversation_turns := t + 1 },
             [], []) := by
          simp [new_step, new_handler, h16, NewState.applyOps, NewState.applyOp, opsAICmds, opsPhoneOut]
        have hrec := ih (t + 1) sid (by omega)
        simp only [List.map_cons, new_ai_run, hstep, new_ext_count_append]
        rw [new_ext_count, List.countP_nil, hrec]
        have harith : t + 1 + xs.length = t + (x :: xs).length := by simp; omega
        rw [harith, Nat.zero_add]

/-- C2 (amended to the newServer.py variant, which is the only variant
with a turn-count fallback).  With no assistant transcript at all — so no
closing phrase can have matched — 16 finalized user transcripts, whatever
their texts, make the newServer.py event loop send exactly one extraction
request, and the first 15 of them send none: the single request is the
turn-count fallback firing at the 16th user turn (`conversation_turns`
exceeding 15), not a phrase match. -/
theorem turn_fallback_extraction (ts : List String) (h : ts.length = 16) :
    new_ext_count (new_ai_run newInit (ts.map OpenAIEvent.inputTranscriptionCompleted)).2.1 = 1 ∧
    new_ext_count (new_ai_run newInit ((ts.take 15).map OpenAIEvent.inputTranscriptionCompleted)).2.1 = 0 := by
  constructor
  · have hrun := new_user_turns_count ts 0 none (by omega)
    rw [show newInit = { stream_sid := none, extraction_done := false, conversation_turns := 0 } from rfl,
        hrun, h, if_pos (by omega)]
  · have hrun := new_user_turns_count (ts.take 15) 0 none (by omega)
    have hlen : (ts.take 15).length = 15 := by
      rw [List.length_take, h]
      rfl
    rw [show newInit = { stream_sid := none, extraction_done := false, conversation_turns := 0 } from rfl,
        hrun, hlen, if_neg (by omega)]

/-- Witness for `turn_fallback_extraction` at a concrete list of sixteen
user transcripts. -/
theorem turn_fallback_extraction_witness :
    new_ext_count (new_ai_run newInit ((List.replicate 16 "I have nine years of experience").map
      OpenAIEvent.inputTranscriptionCompleted)).2.1 = 1 ∧
    new_ext_count (new_ai_run newInit (((List.replicate 16 "I have nine years of experience").take 15).map
      OpenAIEvent.inputTranscriptionCompleted)).2.1 = 0 :=
  turn_fallback_extraction (List.replicate 16 "I have nine years of experience") (by simp)

/-- C2 counterexample for the claim over the server.py variant: server.py's
`openai_to_twilio` (src/server.py lines 379-381) has no turn counter and no
fallback, so sixteen finalized user transcripts with no closing-phrase
assistant transcript produce zero extraction requests there, not one. -/
theorem server_no_turn_fallback_cex :
    old_ext_count (old_ai_run oldInit ((List.replicate 16 "I have nine years of experience").map
      OpenAIEvent.inputTranscriptionCompleted)).2.1 = 0 := by rfl

/-- C3 (amended: the closing-phrase set differs between the variants).
In either variant, from a state whose extraction flag is unset, a
finalized assistant transcript moves the session into the
extraction-requested state and emits the one extraction request exactly
when the transcript, lowercased, contains one of that variant's closing
phrases.  newServer.py's set contains "interview is complete",
"thank you for your time" and "goodbye"; server.py's set contains the
first two but not "goodbye" (its third phrase is "interview is done"). -/
theorem closing_phrase_transition :
    (∀ (st : NewState) (t : String), st.extraction_done = false →
        (new_step st (.audioTranscriptDone t)).1.extraction_done = matchesClosing new_closing_phrases t ∧
        new_ext_count (new_step st (.audioTranscriptDone t)).2.1 =
          (if matchesClosing new_closing_phrases t = true then 1 else 0)) ∧
    ((new_closing_phrases.contains "interview is complete") = true ∧
     (new_closing_phrases.contains "thank you for your time") = true ∧
     (new_closing_phrases.contains "goodbye") = true) ∧
    (∀ (st : OldState) (t : String), st.extraction_requested = false →
        (old_step st (.audioTranscriptDone t)).1.extraction_requested = matchesClosing old_closing_phrases t ∧
        old_ext_count (old_step st (.audioTranscriptDone t)).2.1 =
          (if matchesClosing old_closing_phrases t = true then 1 else 0)) ∧
    ((old_closing_phrases.contains "interview is complete") = true ∧
     (old_closing_phrases.contains "thank you for your time") = true ∧
     (old_closing_phrases.contains "goodbye") = false) := by
  refine ⟨?_, by decide, ?_, by decide⟩
  · intro st t h
    by_cases hm : matchesClosing new_closing_phrases t = true
    · simp [new_step, new_handler, h, hm, NewState.applyOps, NewState.applyOp, opsAICmds,
            new_ext_count, List.countP_cons, isNewExtractionReq_cmd]
    · simp only [Bool.not_eq_true] at hm
      simp [new_step, new_handler, h, hm, NewState.applyOps, NewState.applyOp, opsAICmds,
            new_ext_count]
  · intro st t h
    by_cases hm : matchesClosing old_closing_phrases t = true
    · simp [old_step, old_handler, h, hm, OldState.applyOps, OldState.applyOp, opsAICmds,
            old_ext_count, List.countP_cons, isOldExtractionReq_cmd]
    · simp only [Bool.not_eq_true] at hm
      simp [old_step, old_handler, h, hm, OldState.applyOps, OldState.applyOp, opsAICmds,
            old_ext_count]

/-- Witness for `closing_phrase_transition` at concrete transcripts. -/
theorem closing_phrase_transition_witness :
    ((new_step newInit (.audioTranscriptDone "Your telephonic interview is COMPLETE. Goodbye.")).1.extraction_done =
        matchesClosing new_closing_phrases "Your telephonic interview is COMPLETE. Goodbye." ∧
      new_ext_count (new_step newInit (.audioTranscriptDone "Your telephonic interview is COMPLETE. Goodbye.")).2.1 =
        (if matchesClosing new_closing_phrases "Your telephonic interview is COMPLETE. Goodbye." = true then 1 else 0)) ∧
    ((old_step oldInit (.audioTranscriptDone "Thank you for your time.")).1.extraction_requested =
        matchesClosing old_closing_phrases "Thank you for your time." ∧
      old_ext_count (old_step oldInit (.audioTranscriptDone "Thank you for your time.")).2.1 =
        (if matchesClosing old_closing_phrases "Thank you for your time." = true then 1 else 0)) :=
  ⟨closing_phrase_transition.1 newInit "Your telephonic interview is COMPLETE. Goodbye." rfl,
   closing_phrase_transition.2.2.1 oldInit "Thank you for your time." rfl⟩

/-- C3 counterexample: the claim says the (one) fixed closing-phrase set
includes "goodbye", but in the server.py variant an assistant transcript
saying exactly "Goodbye." fires no transition and no extraction request —
server.py's phrase list has no entry contained in "goodbye.". -/
theorem server_goodbye_not_closing_cex :
    old_step oldInit (.audioTranscriptDone "Goodbye.") = (oldInit, [], []) ∧
    matchesClosing old_closing_phrases "Goodbye." = false ∧
    matchesClosing new_closing_phrases "Goodbye." = true := by
  refine ⟨by decide, by decide, by decide⟩

/-- C4 (amended).  A malformed inbound frame — one missing `event`,
`start.streamSid` or `media.payload` — terminates the receiver loop at
once rather than being skipped: in server.py the `KeyError` is caught by
the blanket `except`, logged, and the loop breaks; in newServer.py the
`KeyError` propagates out of the task uncaught.  In both variants no
command is sent for the malformed frame or for anything after it, the
stream id is left unchanged, and a Disconnect also terminates the loop. -/
theorem malformed_frame_terminates_receiver :
    (∀ (sid : Option String) (f : TwilioFrame) (rest : List RecvItem),
        frameMalformed f = true →
        old_recv_run sid (.frame f :: rest) = (sid, [], .onMalformedBreak) ∧
        new_recv_run sid (.frame f :: rest) = (sid, [], .onRaise)) ∧
    (∀ (sid : Option String) (rest : List RecvItem),
        old_recv_run sid (.disconnect :: rest) = (sid, [], .onDisconnect) ∧
        new_recv_run sid (.disconnect :: rest) = (sid, [], .onDisconnect)) := by
  constructor
  · intro sid f rest h
    constructor
    · simp [old_recv_run, h]
    · simp [new_recv_run, h]
  · intro sid rest
    exact ⟨rfl, rfl⟩

/-- Witness for `malformed_frame_terminates_receiver` at a frame with no
`event` key. -/
theorem malformed_frame_terminates_receiver_witness :
    (old_recv_run none [.frame .noEventField] = (none, [], .onMalformedBreak) ∧
     new_recv_run none [.frame .noEventField] = (none, [], .onRaise)) ∧
    (old_recv_run none [.disconnect] = (none, [], .onDisconnect) ∧
     new_recv_run none [.disconnect] = (none, [], .onDisconnect)) :=
  ⟨malformed_frame_terminates_receiver.1 none .noEventField [] rfl,
   malformed_frame_terminates_receiver.2 none []⟩

/-- C4 counterexample: after a frame missing its `event` key, a following
well-formed `media` frame is never processed — the receiver emits no
`input_audio_buffer.append` for it in either variant, because the loop has
already terminated, contradicting "logs the problem and skips that frame,
then continues its receive loop". -/
theorem malformed_frame_receiver_cex :
    old_recv_run none [.frame .noEventField, .frame (.media (some "QUJD"))] =
      (none, [], .onMalformedBreak) ∧
    new_recv_run none [.frame .noEventField, .frame (.media (some "QUJD"))] =
      (none, [], .onRaise) ∧
    old_recv_run none [.frame (.media (some "QUJD")), .frame .stop] =
      (none, [.audioAppend "QUJD", .audioCommit], .onStop) := ⟨rfl, rfl, rfl⟩

/-- C5 (amended: "set" must mean set to a non-empty id).  In both
variants an AI audio delta is dropped — no outbound media at all — while
`stream_sid` is still `None`, and is forwarded as a single outbound media
message with the payload unchanged and tagged with the current id once
`stream_sid` holds a non-empty string.  (The guard is Python truthiness,
`if ... and stream_sid:`, hence the empty-string exception recorded in
the counterexample.) -/
theorem audio_delta_routing :
    (∀ (st : NewState) (d : String), st.stream_sid = none →
        new_step st (.audioDelta d) = (st, [], [])) ∧
    (∀ (st : NewState) (d s : String), st.stream_sid = some s → s.isEmpty = false →
        new_step st (.audioDelta d) = (st, [], [{ streamSid := s, payload := d }])) ∧
    (∀ (st : OldState) (d : String), st.stream_sid = none →
        old_step st (.audioDelta d) = (st, [], [])) ∧
    (∀ (st : OldState) (d s : String), st.stream_sid = some s → s.isEmpty = false →
        old_step st (.audioDelta d) = (st, [], [{ streamSid := s, payload := d }])) := by
  refine ⟨?_, ?_, ?_, ?_⟩
  · intro st d h
    simp [new_step, new_handler, h, NewState.applyOps, opsAICmds, opsPhoneOut]
  · intro st d s h he
    simp [new_step, new_handler, h, he, NewState.applyOps, NewState.applyOp, opsAICmds, opsPhoneOut]
  · intro st d h
    simp [old_step, old_handler, h, OldState.applyOps, opsAICmds, opsPhoneOut]
  · intro st d s h he
    simp [old_step, old_handler, h, he, OldState.applyOps, OldState.applyOp, opsAICmds, opsPhoneOut]

/-- Witness for `audio_delta_routing` at concrete states and payload. -/
theorem audio_delta_routing_witness :
    new_step newInit (.audioDelta "QUJD") = (newInit, [], []) ∧
    new_step { stream_sid := some "MZ0123", extraction_done := false, conversation_turns := 0 }
        (.audioDelta "QUJD") =
      ({ stream_sid := some "MZ0123", extraction_done := false, conversation_turns := 0 }, [],
       [{ streamSid := "MZ0123", payload := "QUJD" }]) ∧
    old_step oldInit (.audioDelta "QUJD") = (oldInit, [], []) ∧
    old_step { stream_sid := some "MZ0123", interview_completed := false, extraction_requested := false }
        (.audioDelta "QUJD") =
      ({ stream_sid := some "MZ0123", interview_completed := false, extraction_requested := false }, [],
       [{ streamSid := "MZ0123", payload := "QUJD" }]) :=
  ⟨audio_delta_routing.1 newInit "QUJD" rfl,
   audio_delta_routing.2.1 _ "QUJD" "MZ0123" rfl rfl,
   audio_delta_routing.2.2.1 oldInit "QUJD" rfl,
   audio_delta_routing.2.2.2 _ "QUJD" "MZ0123" rfl rfl⟩

/-- C5 counterexample: a correlation id that has been SET — to the empty
string, via a `start` frame whose `streamSid` is `""` — still drops every
audio delta in both variants, because the Python guard
`if etype == "response.audio.delta" and stream_sid:` tests truthiness,
not whether the id was assigned.  The claim "once the correlation id is
set, each audio delta is forwarded outward" fails at this input. -/
theorem audio_delta_empty_sid_cex :
    new_step { stream_sid := some "", extraction_done := false, conversation_turns := 0 }
        (.audioDelta "QUJD") =
      ({ stream_sid := some "", extraction_done := false, conversation_turns := 0 }, [], []) ∧
    old_step { stream_sid := some "", interview_completed := false, extraction_requested := false }
        (.audioDelta "QUJD") =
      ({ stream_sid := some "", interview_completed := false, extraction_requested := false }, [], []) ∧
    (new_recv_run none [.frame (.start (some ""))]).1 = some "" := by
  refine ⟨by decide, by decide, by decide⟩

/-- C6.  In every session of either variant the first two commands sent
into the AI session are, in order, the session configuration (g711_ulaw
codec both ways, voice alloy, whisper-1 transcription, server VAD with
threshold 0.5, 300ms prefix padding, 700ms trailing silence) and then the
greeting `response.create` — but only newServer.py's greeting instruction
text is identical to the mandated greeting line of the system
instructions; server.py's greeting introduces the agent as AIRA while its
own `SYSTEM_INSTRUCTIONS` mandate SAVIRA. -/
theorem session_startup_commands :
    (∀ tr : List SessItem, (old_session tr).aiCommands.take 2 =
        [.sessionUpdate old_session_cfg, .responseCreate ["text", "audio"] old_greeting_instructions]) ∧
    (∀ tr : List SessItem, (new_session tr).aiCommands.take 2 =
        [.sessionUpdate new_session_cfg, .responseCreate ["text", "audio"] new_greeting_instructions]) ∧
    old_session_cfg.voice = "alloy" ∧
    old_session_cfg.input_audio_format = "g711_ulaw" ∧
    old_session_cfg.output_audio_format = "g711_ulaw" ∧
    old_session_cfg.transcription_model = "whisper-1" ∧
    old_session_cfg.turn_detection =
      { vad_type := "server_vad", threshold := 0.5, padding_ms := 300, silence_duration_ms := 700 } ∧
    new_session_cfg.voice = "alloy" ∧
    new_session_cfg.input_audio_format = "g711_ulaw" ∧
    new_session_cfg.output_audio_format = "g711_ulaw" ∧
    new_session_cfg.transcription_model = "whisper-1" ∧
    new_session_cfg.turn_detection = old_session_cfg.turn_detection ∧
    new_greeting_instructions = MANDATED_GREETING ∧
    (old_greeting_instructions == MANDATED_GREETING) = false := by
  refine ⟨?_, ?_, rfl, rfl, rfl, rfl, rfl, rfl, rfl, rfl, rfl, rfl, rfl, by decide⟩
  · intro tr
    simp [old_session, old_startup_cmds]
  · intro tr
    simp [new_session, new_startup_cmds]

/-- The extraction response of the worked spec example. -/
def extraction_example_text : String :=
  "Here you go: \x7b\"full_name\":\"Jane Doe\",\"email\":null,\"role\":\"Backend Engineer\"\x7d"

/-- C7.  The extraction parser takes the substring from the first left
brace to the last right brace and strictly JSON-decodes it: on the worked
example it yields exactly the three present keys (with `email` mapped to
JSON null) and none of the four absent ones; a text with no brace pair
yields nothing (the empty record), as does a brace pair that is not
strict JSON (single quotes); and the `response.output_text.done` handler
performs no state change and no send whatsoever — in particular no retry
and no second extraction request. -/
theorem extraction_response_parsing :
    extract_candidate extraction_example_text =
      some (Json.obj [("full_name", Json.str "Jane Doe"), ("email", Json.null),
                      ("role", Json.str "Backend Engineer")]) ∧
    (extract_candidate extraction_example_text).bind (fun j => j.lookupKey "full_name") =
      some (Json.str "Jane Doe") ∧
    (extract_candidate extraction_example_text).bind (fun j => j.lookupKey "email") =
      some Json.null ∧
    (extract_candidate extraction_example_text).bind (fun j => j.lookupKey "role") =
      some (Json.str "Backend Engineer") ∧
    (extract_candidate extraction_example_text).bind (fun j => j.lookupKey "last_company_name") = none ∧
    (extract_candidate extraction_example_text).bind (fun j => j.lookupKey "experience") = none ∧
    (extract_candidate extraction_example_text).bind (fun j => j.lookupKey "previous_salary") = none ∧
    (extract_candidate extraction_example_text).bind (fun j => j.lookupKey "expected_salary") = none ∧
    extract_candidate "The model returned no structured data at all." = none ∧
    extract_candidate "Sure: \x7b'full_name': 'Jane Doe'\x7d" = none ∧
    (∀ (st : NewState) (t : String), new_step st (.outputTextDone t) = (st, [], [])) :=
  ⟨rfl, rfl, rfl, rfl, rfl, rfl, rfl, rfl, rfl, rfl, fun _ _ => rfl⟩

/-- C8 (amended).  Termination of one task does not cancel the other:
`asyncio.gather` joins on both, so an AI event is processed identically —
same state change, same sends — whether or not the phone task has already
terminated, and symmetrically a phone frame is processed identically
whether or not the AI task has terminated.  newServer.py never closes the
AI connection on any trace, and server.py closes it exactly when both
tasks have terminated (in its `finally`, after `gather` returns) — not
within one scheduling cycle of the first termination. -/
theorem no_cancellation_on_task_exit :
    (∀ (st : NewState) (e : OpenAIEvent),
        new_sess_step { st := st, phoneDone := true, aiDone := false } (.ai e) =
          ({ st := (new_step st e).1, phoneDone := true, aiDone := false },
           (new_step st e).2.1, (new_step st e).2.2)) ∧
    (∀ (st : OldState) (e : OpenAIEvent),
        old_sess_step { st := st, phoneDone := true, aiDone := false } (.ai e) =
          ({ st := (old_step st e).1, phoneDone := true, aiDone := false },
           (old_step st e).2.1, (old_step st e).2.2)) ∧
    (∀ tr : List SessItem, (new_session tr).aiConnectionClosed = false) ∧
    (∀ tr : List SessItem, (old_session tr).aiConnectionClosed =
        ((old_sess_run oldSessInit tr).1.phoneDone && (old_sess_run oldSessInit tr).1.aiDone)) :=
  ⟨fun _ _ => rfl, fun _ _ => rfl, fun _ => rfl, fun _ => rfl⟩

set_option maxRecDepth 8192 in
/-- C8 counterexample: the phone side disconnects on the first scheduling
item, yet on the next item the (uncancelled) AI task still processes a
closing transcript and sends the extraction request into its still-open
connection — one further send and arbitrarily many further cycles after
the phone-side termination — and the newServer.py session never closes
the AI connection at all, leaving it orphaned. -/
theorem disconnect_orphans_ai_connection_cex :
    (new_sess_run newSessInit [.phone .disconnect]).1.phoneDone = true ∧
    new_ext_count (new_session [.phone .disconnect,
        .ai (.audioTranscriptDone "Take care and goodbye.")]).aiCommands = 1 ∧
    (new_session [.phone .disconnect,
        .ai (.audioTranscriptDone "Take care and goodbye.")]).aiConnectionClosed = false := by
  refine ⟨by decide, by decide, by decide⟩

/-- C9.  In both variants the extraction guard is assigned strictly
before the extraction send is awaited: wherever the extraction request
occurs in a handler's micro-op list, the state obtained by executing just
the ops before it already has the guard set — so a send that raises still
leaves the flag set — and from any state with the guard set no handler
contains an extraction send at all, so no second request can ever be
issued. -/
theorem extraction_flag_set_before_send :
    (∀ (st : NewState) (e : OpenAIEvent) (n : Nat),
        ((new_handler st e).drop n).head? = some (.sendAI new_extraction_cmd) →
        (st.applyOps ((new_handler st e).take n)).extraction_done = true) ∧
    (∀ (st : NewState) (e : OpenAIEvent), st.extraction_done = true →
        MicroOp.sendAI new_extraction_cmd ∉ new_handler st e) ∧
    (∀ (st : OldState) (e : OpenAIEvent) (n : Nat),
        ((old_handler st e).drop n).head? = some (.sendAI old_extraction_cmd) →
        (OldState.applyOps st ((old_handler st e).take n)).extraction_requested = true) ∧
    (∀ (st : OldState) (e : OpenAIEvent), st.extraction_requested = true →
        MicroOp.sendAI old_extraction_cmd ∉ old_handler st e) := by
  refine ⟨?_, ?_, ?_, ?_⟩
  · intro st e n h
    cases e <;> simp only [new_handler] at h ⊢
    case audioDelta d =>
      cases hsid : st.stream_sid with
      | none => simp [hsid] at h
      | some sid =>
          by_cases he : sid.isEmpty <;>
            · simp only [hsid, he] at h
              rcases n with _ | _ | n <;> simp_all
    case inputTranscriptionCompleted t =>
      by_cases hc : st.extraction_done = false ∧ 15 < st.conversation_turns + 1
      · simp only [if_pos hc] at h ⊢
        rcases n with _ | _ | _ | n <;>
          simp_all [NewState.applyOps, NewState.applyOp]
      · simp only [if_neg hc] at h ⊢
        rcases n with _ | _ | n <;> simp_all
    case audioTranscriptDone t =>
      by_cases hc : st.extraction_done = false ∧ matchesClosing new_closing_phrases t = true
      · simp only [if_pos hc] at h ⊢
        rcases n with _ | _ | _ | n <;>
          simp_all [NewState.applyOps, NewState.applyOp]
      · simp only [if_neg hc] at h ⊢
        rcases n with _ | _ | n <;> simp_all
    all_goals simp_all
  · intro st e h
    cases e <;> simp only [new_handler]
    case audioDelta d =>
      cases hsid : st.stream_sid with
      | none => simp
      | some sid => by_cases he : sid.isEmpty <;> simp [he]
    case inputTranscriptionCompleted t => simp [h]
    case audioTranscriptDone t => simp [h]
    all_goals simp
  · intro st e n h
    cases e <;> simp only [old_handler] at h ⊢
    case audioDelta d =>
      cases hsid : st.stream_sid with
      | none => simp [hsid] at h
      | some sid =>
          by_cases he : sid.isEmpty <;>
            · simp only [hsid, he] at h
              rcases n with _ | _ | n <;> simp_all
    case audioTranscriptDone t =>
      by_cases hc : st.extraction_requested = false ∧ matchesClosing old_closing_phrases t = true
      · simp only [if_pos hc] at h ⊢
        rcases n with _ | _ | _ | n <;>
          simp_all [OldState.applyOps, OldState.applyOp]
      · simp only [if_neg hc] at h ⊢
        rcases n with _ | _ | n <;> simp_all
    all_goals simp_all
  · intro st e h
    cases e <;> simp only [old_handler]
    case audioDelta d =>
      cases hsid : st.stream_sid with
      | none => simp
      | some sid => by_cases he : sid.isEmpty <;> simp [he]
    case audioTranscriptDone t => simp [h]
    all_goals simp

set_option maxRecDepth 8192 in
/-- Witness for `extraction_flag_set_before_send`: in the newServer.py
closing-phrase handler the extraction send sits at position 1 and
executing the single op before it already sets the flag; and with the
flag already set the handler for a matching transcript contains no
extraction send. -/
theorem extraction_flag_set_before_send_witness :
    (NewState.applyOps newInit
        ((new_handler newInit (.audioTranscriptDone "goodbye")).take 1)).extraction_done = true ∧
    MicroOp.sendAI new_extraction_cmd ∉
      new_handler { stream_sid := none, extraction_done := true, conversation_turns := 0 }
        (.audioTranscriptDone "goodbye") ∧
    (OldState.applyOps oldInit
        ((old_handler oldInit (.audioTranscriptDone "thank you for your time")).take 2)).extraction_requested = true :=
  ⟨extraction_flag_set_before_send.1 newInit (.audioTranscriptDone "goodbye") 1 (by decide),
   extraction_flag_set_before_send.2.1 _ (.audioTranscriptDone "goodbye") rfl,
   extraction_flag_set_before_send.2.2.1 oldInit (.audioTranscriptDone "thank you for your time") 2
     (by decide)⟩

/-- C10.  The inbound direction is never gated by the correlation id: a
well-formed `media` frame is forwarded into the AI input audio buffer
unconditionally — from any receiver state, in particular before any
`start` frame has set the id — while the outbound direction drops audio
deltas whenever the id is still unset. -/
theorem inbound_media_ungated :
    (∀ (s : NewSess) (p : String), s.phoneDone = false →
        new_sess_step s (.phone (.frame (.media (some p)))) = (s, [.audioAppend p], [])) ∧
    (∀ (s : OldSess) (p : String), s.phoneDone = false →
        old_sess_step s (.phone (.frame (.media (some p)))) = (s, [.audioAppend p], [])) ∧
    (∀ (st : NewState) (d : String), st.stream_sid = none →
        (new_step st (.audioDelta d)).2.2 = []) ∧
    (∀ (st : OldState) (d : String), st.stream_sid = none →
        (old_step st (.audioDelta d)).2.2 = []) := by
  refine ⟨?_, ?_, ?_, ?_⟩
  · intro s p h
    obtain ⟨⟨a, b, c⟩, pd, ad⟩ := s
    subst h
    simp [new_sess_step, new_frame_outcome, frameMalformed, frame_sid, frame_cmds]
  · intro s p h
    obtain ⟨⟨a, b, c⟩, pd, ad⟩ := s
    subst h
    simp [old_sess_step, old_frame_outcome, frameMalformed, frame_sid, frame_cmds]
  · intro st d h
    simp [new_step, new_handler, h, opsPhoneOut]
  · intro st d h
    simp [old_step, old_handler, h, opsPhoneOut]

/-- Witness for `inbound_media_ungated` at the initial states (no `start`
frame seen yet on either side). -/
theorem inbound_media_ungated_witness :
    new_sess_step newSessInit (.phone (.frame (.media (some "QUJD")))) =
      (newSessInit, [.audioAppend "QUJD"], []) ∧
    old_sess_step oldSessInit (.phone (.frame (.media (some "QUJD")))) =
      (oldSessInit, [.audioAppend "QUJD"], []) ∧
    (new_step newInit (.audioDelta "QUJD")).2.2 = [] ∧
    (old_step oldInit (.audioDelta "QUJD")).2.2 = [] :=
  ⟨inbound_media_ungated.1 newSessInit "QUJD" rfl,
   inbound_media_ungated.2.1 oldSessInit "QUJD" rfl,
   inbound_media_ungated.2.2.1 newInit "QUJD" rfl,
   inbound_media_ungated.2.2.2 oldInit "QUJD" rfl⟩
